import Mathlib

/-!
Shallow embedding of the quikdb-leaderboard-api scoring-and-ranking engine.

The source of truth is `src/services/leaderboard.js` (the MongoDB aggregation
pipeline inside `updateLeaderboard`, the cache lifecycle of the
`LeaderboardService` class) and `src/controllers/leaderboard.controller.js`
(the query facade handlers).  Real numbers of the pipeline are modelled as
rationals; timestamps are rationals counting milliseconds since the epoch;
optional (possibly-missing) BSON fields are `Option` values, with the
pipeline's `$ifNull` defaults rendered by `Option.getD`.
-/

namespace Leaderboard

/-- Registry document from the `devices` collection, as read through the
`$lookup` stage: creation timestamp, manual grace-period flag and its end
timestamp.  All fields are optional in the store. -/
structure DeviceInfo where
  createdAt : Option ℚ
  isInGracePeriod : Option Bool
  gracePeriodEndsAt : Option ℚ
deriving Repr, DecidableEq

/-- Per-node aggregate produced by the `$group` stage (stage 3) joined with
the registry lookup (stage 4): distinct hour buckets, heartbeat counts,
conditional averages of the optional metrics, first/last-seen timestamps and
the maximal single continuous-uptime sample. -/
structure NodeAgg where
  deviceId : String
  hoursOnline7d : ℕ
  totalHeartbeats : ℕ
  recentHeartbeats : ℕ
  avgNetworkSpeed : Option ℚ
  avgLatency : Option ℚ
  avgCpuUsage : Option ℚ
  avgMemoryUsage : Option ℚ
  avgDiskUsage : Option ℚ
  firstSeen : ℚ
  lastSeen : ℚ
  maxUptime : Option ℚ
  deviceInfo : Option DeviceInfo
deriving Repr, DecidableEq

/-- Stage 5: `hoursSinceLastSeen = ($$NOW - lastSeen) / 3600000`. -/
def hoursSinceLastSeen (now : ℚ) (a : NodeAgg) : ℚ :=
  (now - a.lastSeen) / 3600000

/-- Stage 5: `meetsMinimumUptime = (ifNull maxUptime 0) >= 1800`. -/
def meetsMinimumUptime (a : NodeAgg) : Bool :=
  decide (1800 ≤ a.maxUptime.getD 0)

/-- Stage 5: `cappedMaxUptime = min (ifNull maxUptime 0) 86400`. -/
def cappedMaxUptime (a : NodeAgg) : ℚ :=
  min (a.maxUptime.getD 0) 86400

/-- Stage 5: the `isNewNode` grace-eligibility flag.  Active when the manual
grace flag is set and `$$NOW` is before `gracePeriodEndsAt` (missing end
treated as `Date(0)`), or when `createdAt` is present and the node is at most
7 days old. -/
def isNewNode (now : ℚ) (a : NodeAgg) : Bool :=
  ((a.deviceInfo.bind DeviceInfo.isInGracePeriod).getD false
      && decide (now < (a.deviceInfo.bind DeviceInfo.gracePeriodEndsAt).getD 0))
    || (match a.deviceInfo.bind DeviceInfo.createdAt with
        | none => false
        | some created => decide ((now - created) / 86400000 ≤ 7))

/-- Stage 6: availability sub-score (0..45).  Zero when the longest uptime
sample (`ifNull maxUptime 0`) is under 1800 s, otherwise
`min (hoursOnline7d / 154) 1 * 45`. -/
def availabilityScore (a : NodeAgg) : ℚ :=
  if a.maxUptime.getD 0 < 1800 then 0
  else min ((a.hoursOnline7d : ℚ) / 154) 1 * 45

/-- Stage 6: network-quality sub-score (0..30):
`min ((ifNull avgNetworkSpeed 0) / 400) 1 * 20
 + max (1 - (ifNull avgLatency 200) / 200) 0 * 10`. -/
def networkQualityScore (a : NodeAgg) : ℚ :=
  min (a.avgNetworkSpeed.getD 0 / 400) 1 * 20
    + max (1 - a.avgLatency.getD 200 / 200) 0 * 10

/-- Stage 6: resource-headroom sub-score (0..10), 6 + 3 + 1 points of inverse
CPU / memory / disk utilisation, each `$ifNull`-defaulted to the neutral 50. -/
def resourceHeadroomScore (a : NodeAgg) : ℚ :=
  max (1 - a.avgCpuUsage.getD 50 / 100) 0 * 6
    + max (1 - a.avgMemoryUsage.getD 50 / 100) 0 * 3
    + max (1 - a.avgDiskUsage.getD 50 / 100) 0 * 1

/-- Stage 6: consistency sub-score (0..15):
`min (hoursOnline7d / (168 * 0.8)) 1 * 12` plus a recency term that is 0 past
72 h and otherwise `max (1 - hoursSinceLastSeen / 72) 0 * 3`. -/
def consistencyScore (now : ℚ) (a : NodeAgg) : ℚ :=
  min ((a.hoursOnline7d : ℚ) / (168 * (8 / 10))) 1 * 12
    + (if 72 < hoursSinceLastSeen now a then 0
       else max (1 - hoursSinceLastSeen now a / 72) 0 * 3)

/-- MongoDB `$round [x, 2]`: round to two decimal places. -/
def round2 (x : ℚ) : ℚ :=
  (round (x * 100) : ℚ) / 100

/-- Stage 7: `calculatedScore` = sum of the four component scores. -/
def calculatedScore (now : ℚ) (a : NodeAgg) : ℚ :=
  availabilityScore a + networkQualityScore a + resourceHeadroomScore a
    + consistencyScore now a

/-- Stage 7: the composite `reputationScore`: the grace seed 100 when
`isNewNode` holds and `totalHeartbeats ≤ 10`, otherwise the sum of the four
sub-scores; rounded to 2 decimals either way. -/
def reputationScore (now : ℚ) (a : NodeAgg) : ℚ :=
  round2 (if isNewNode now a ∧ a.totalHeartbeats ≤ 10 then 100
          else calculatedScore now a)

/-- The four tiers of stage 8 (`excellent` / `good` / `average` / `poor`). -/
inductive NodeStatus where
  | excellent
  | good
  | average
  | poor
deriving Repr, DecidableEq

/-- Stage 8 `baseStatus`: tier thresholds on the rounded score. -/
def baseStatus (score : ℚ) : NodeStatus :=
  if 75 ≤ score then .excellent
  else if 55 ≤ score then .good
  else if 40 ≤ score then .average
  else .poor

/-- Stage 8 `status`: with grace active the two `$switch` branches for scores
below 55 both yield `good` (the clamp), otherwise the full four-way split. -/
def statusOf (isNew : Bool) (score : ℚ) : NodeStatus :=
  if isNew then
    if 75 ≤ score then .excellent
    else if 55 ≤ score then .good
    else .good
  else
    if 75 ≤ score then .excellent
    else if 55 ≤ score then .good
    else if 40 ≤ score then .average
    else .poor

/-- The `status` field attached to a node document in stage 8: the tier is
computed from the already-rounded `reputationScore`. -/
def nodeStatus (now : ℚ) (a : NodeAgg) : NodeStatus :=
  statusOf (isNewNode now a) (reputationScore now a)

/-! Helper bounds about the unit-interval building blocks of the scores. -/

lemma min_div_one_unit {x c : ℚ} (hx : 0 ≤ x) (hc : 0 ≤ c) :
    0 ≤ min (x / c) 1 ∧ min (x / c) 1 ≤ 1 :=
  ⟨le_min (div_nonneg hx hc) zero_le_one, min_le_right _ _⟩

lemma max_decay_unit {y : ℚ} (hy : y ≤ 1) :
    0 ≤ max y 0 ∧ max y 0 ≤ 1 := by
  exact ⟨le_max_right _ _, max_le hy zero_le_one⟩

lemma availabilityScore_bounds (a : NodeAgg) :
    0 ≤ availabilityScore a ∧ availabilityScore a ≤ 45 := by
  unfold availabilityScore
  split
  · norm_num
  · have h := min_div_one_unit (c := 154) (Nat.cast_nonneg a.hoursOnline7d)
      (by norm_num)
    constructor <;> nlinarith [h.1, h.2]

lemma networkQualityScore_bounds (a : NodeAgg)
    (hspeed : ∀ x ∈ a.avgNetworkSpeed, 0 ≤ x)
    (hlat : ∀ x ∈ a.avgLatency, 0 ≤ x) :
    0 ≤ networkQualityScore a ∧ networkQualityScore a ≤ 30 := by
  have hs : 0 ≤ a.avgNetworkSpeed.getD 0 := by
    cases h : a.avgNetworkSpeed with
    | none => simp
    | some v => simpa using hspeed v (by simp [h])
  have hl : 0 ≤ a.avgLatency.getD 200 := by
    cases h : a.avgLatency with
    | none => simp
    | some v => simpa using hlat v (by simp [h])
  have h1 := min_div_one_unit (c := 400) hs (by norm_num)
  have h2 := max_decay_unit (y := 1 - a.avgLatency.getD 200 / 200)
    (by linarith [div_nonneg hl (by norm_num : (0:ℚ) ≤ 200)])
  unfold networkQualityScore
  constructor <;> nlinarith [h1.1, h1.2, h2.1, h2.2]

lemma resourceHeadroomScore_bounds (a : NodeAgg)
    (hcpu : ∀ x ∈ a.avgCpuUsage, 0 ≤ x)
    (hmem : ∀ x ∈ a.avgMemoryUsage, 0 ≤ x)
    (hdisk : ∀ x ∈ a.avgDiskUsage, 0 ≤ x) :
    0 ≤ resourceHeadroomScore a ∧ resourceHeadroomScore a ≤ 10 := by
  have hc : 0 ≤ a.avgCpuUsage.getD 50 := by
    cases h : a.avgCpuUsage with
    | none => simp
    | some v => simpa using hcpu v (by simp [h])
  have hm : 0 ≤ a.avgMemoryUsage.getD 50 := by
    cases h : a.avgMemoryUsage with
    | none => simp
    | some v => simpa using hmem v (by simp [h])
  have hd : 0 ≤ a.avgDiskUsage.getD 50 := by
    cases h : a.avgDiskUsage with
    | none => simp
    | some v => simpa using hdisk v (by simp [h])
  have h1 := max_decay_unit (y := 1 - a.avgCpuUsage.getD 50 / 100)
    (by linarith [div_nonneg hc (by norm_num : (0:ℚ) ≤ 100)])
  have h2 := max_decay_unit (y := 1 - a.avgMemoryUsage.getD 50 / 100)
    (by linarith [div_nonneg hm (by norm_num : (0:ℚ) ≤ 100)])
  have h3 := max_decay_unit (y := 1 - a.avgDiskUsage.getD 50 / 100)
    (by linarith [div_nonneg hd (by norm_num : (0:ℚ) ≤ 100)])
  unfold resourceHeadroomScore
  constructor <;> nlinarith [h1.1, h1.2, h2.1, h2.2, h3.1, h3.2]

lemma consistencyScore_bounds (now : ℚ) (a : NodeAgg)
    (hseen : 0 ≤ hoursSinceLastSeen now a) :
    0 ≤ consistencyScore now a ∧ consistencyScore now a ≤ 15 := by
  have h1 := min_div_one_unit (c := 168 * (8 / 10))
    (Nat.cast_nonneg a.hoursOnline7d) (by norm_num)
  have h2 := max_decay_unit (y := 1 - hoursSinceLastSeen now a / 72)
    (by linarith [div_nonneg hseen (by norm_num : (0:ℚ) ≤ 72)])
  unfold consistencyScore
  split
  · constructor <;> nlinarith [h1.1, h1.2]
  · constructor <;> nlinarith [h1.1, h1.2, h2.1, h2.2]

lemma round_mono_q {x y : ℚ} (h : x ≤ y) : round x ≤ round y := by
  rw [round_eq, round_eq]
  exact Int.floor_le_floor (by linarith)

lemma round2_mem {x : ℚ} (h0 : 0 ≤ x) (h1 : x ≤ 100) :
    0 ≤ round2 x ∧ round2 x ≤ 100 := by
  have hlo : (0 : ℤ) ≤ round (x * 100) := by
    have h := round_mono_q (x := 0) (y := x * 100) (by nlinarith)
    simpa using h
  have hhi : round (x * 100) ≤ 10000 := by
    have h := round_mono_q (x := x * 100) (y := 10000) (by nlinarith)
    simpa using h
  have hlo' : (0 : ℚ) ≤ (round (x * 100) : ℚ) := by exact_mod_cast hlo
  have hhi' : ((round (x * 100) : ℤ) : ℚ) ≤ 10000 := by exact_mod_cast hhi
  unfold round2
  constructor <;> [positivity; linarith]

lemma round2_hundred : round2 100 = 100 := by
  unfold round2
  norm_num

/-- C3: a node whose `isNewNode` grace flag is active (manual registry grace
still in force, or age since registration at most 7 days) and that has at
most 10 heartbeats in the window gets composite reputation score exactly
100, whatever the computed sub-scores. -/
theorem newNode_scores_hundred (now : ℚ) (a : NodeAgg)
    (hnew : isNewNode now a = true) (hhb : a.totalHeartbeats ≤ 10) :
    reputationScore now a = 100 := by
  unfold reputationScore
  rw [if_pos ⟨hnew, hhb⟩]
  exact round2_hundred

/-- A concrete registry entry whose manual grace flag is in force at time 0. -/
def graceInfo : DeviceInfo :=
  { createdAt := none, isInGracePeriod := some true, gracePeriodEndsAt := some 1 }

/-- A concrete aggregate for a grace-eligible node with 3 heartbeats. -/
def graceAgg : NodeAgg :=
  { deviceId := "node-w", hoursOnline7d := 2, totalHeartbeats := 3
    recentHeartbeats := 3, avgNetworkSpeed := none, avgLatency := none
    avgCpuUsage := none, avgMemoryUsage := none, avgDiskUsage := none
    firstSeen := 0, lastSeen := 0, maxUptime := none
    deviceInfo := some graceInfo }

lemma graceAgg_isNewNode : isNewNode 0 graceAgg = true := by
  simp [isNewNode, graceAgg, graceInfo]

theorem newNode_scores_hundred_witness : reputationScore 0 graceAgg = 100 :=
  newNode_scores_hundred 0 graceAgg graceAgg_isNewNode (by norm_num [graceAgg])

/-- C4: a grace-eligible node is never tiered `poor`: any rounded score below
55 still yields `good`, and a score of at least 75 yields `excellent`. -/
theorem grace_never_poor (now : ℚ) (a : NodeAgg)
    (hnew : isNewNode now a = true) :
    nodeStatus now a ≠ NodeStatus.poor
      ∧ (reputationScore now a < 55 → nodeStatus now a = NodeStatus.good)
      ∧ (75 ≤ reputationScore now a → nodeStatus now a = NodeStatus.excellent) := by
  unfold nodeStatus statusOf
  simp only [hnew, if_true]
  refine ⟨?_, ?_, ?_⟩
  · split
    · simp
    · split <;> simp
  · intro hlt
    rw [if_neg (by linarith), if_neg (by linarith)]
  · intro hge
    rw [if_pos hge]

theorem grace_never_poor_witness : nodeStatus 0 graceAgg ≠ NodeStatus.poor :=
  (grace_never_poor 0 graceAgg graceAgg_isNewNode).1

/-- C1: for every node of a snapshot whose raw metrics (throughput, latency,
CPU/memory/storage percentages, uptime, hours-since-last-seen) are
non-negative, the composite `reputationScore` (the four sub-scores summed, or
the grace-seeded 100) lies in [0, 100], and the tier is assigned from that
already-rounded value. -/
theorem reputationScore_in_range (now : ℚ) (a : NodeAgg)
    (hspeed : ∀ x ∈ a.avgNetworkSpeed, 0 ≤ x)
    (hlat : ∀ x ∈ a.avgLatency, 0 ≤ x)
    (hcpu : ∀ x ∈ a.avgCpuUsage, 0 ≤ x)
    (hmem : ∀ x ∈ a.avgMemoryUsage, 0 ≤ x)
    (hdisk : ∀ x ∈ a.avgDiskUsage, 0 ≤ x)
    (_hup : ∀ x ∈ a.maxUptime, 0 ≤ x)
    (hseen : 0 ≤ hoursSinceLastSeen now a) :
    0 ≤ reputationScore now a ∧ reputationScore now a ≤ 100
      ∧ nodeStatus now a = statusOf (isNewNode now a) (reputationScore now a) := by
  have hA := availabilityScore_bounds a
  have hN := networkQualityScore_bounds a hspeed hlat
  have hR := resourceHeadroomScore_bounds a hcpu hmem hdisk
  have hC := consistencyScore_bounds now a hseen
  have key : 0 ≤ reputationScore now a ∧ reputationScore now a ≤ 100 := by
    unfold reputationScore
    split
    · rw [round2_hundred]
      norm_num
    · refine round2_mem ?_ ?_ <;> unfold calculatedScore
      · linarith [hA.1, hN.1, hR.1, hC.1]
      · linarith [hA.2, hN.2, hR.2, hC.2]
  exact ⟨key.1, key.2, rfl⟩

theorem reputationScore_in_range_witness :
    0 ≤ reputationScore 0 graceAgg ∧ reputationScore 0 graceAgg ≤ 100
      ∧ nodeStatus 0 graceAgg
          = statusOf (isNewNode 0 graceAgg) (reputationScore 0 graceAgg) :=
  reputationScore_in_range 0 graceAgg (by simp [graceAgg]) (by simp [graceAgg])
    (by simp [graceAgg]) (by simp [graceAgg]) (by simp [graceAgg])
    (by simp [graceAgg]) (by simp [hoursSinceLastSeen, graceAgg])

/-- Stage 9 `$sort { reputationScore: -1, availabilityScore: -1,
hoursSinceLastSeen: 1 }` as a boolean "sorts no later than" comparator:
reputation descending, then availability descending, then
hours-since-last-seen ascending. -/
def sortKeyLE (now : ℚ) (x y : NodeAgg) : Bool :=
  decide (reputationScore now y < reputationScore now x)
    || (decide (reputationScore now x = reputationScore now y)
      && (decide (availabilityScore y < availabilityScore x)
        || (decide (availabilityScore x = availabilityScore y)
          && decide (hoursSinceLastSeen now x ≤ hoursSinceLastSeen now y))))

lemma sortKeyLE_trans (now : ℚ) : ∀ a b c : NodeAgg,
    sortKeyLE now a b = true → sortKeyLE now b c = true →
    sortKeyLE now a c = true := by
  intro a b c hab hbc
  simp only [sortKeyLE, Bool.or_eq_true, Bool.and_eq_true,
    decide_eq_true_eq] at hab hbc ⊢
  rcases hab with h1 | ⟨e1, hab2⟩ <;> rcases hbc with g1 | ⟨f1, hbc2⟩
  · exact Or.inl (by linarith)
  · exact Or.inl (by linarith)
  · exact Or.inl (by linarith)
  · refine Or.inr ⟨by linarith, ?_⟩
    rcases hab2 with h2 | ⟨e2, h3⟩ <;> rcases hbc2 with g2 | ⟨f2, g3⟩
    · exact Or.inl (by linarith)
    · exact Or.inl (by linarith)
    · exact Or.inl (by linarith)
    · exact Or.inr ⟨by linarith, by linarith⟩

lemma sortKeyLE_total (now : ℚ) : ∀ a b : NodeAgg,
    (sortKeyLE now a b || sortKeyLE now b a) = true := by
  intro a b
  simp only [sortKeyLE, Bool.or_eq_true, Bool.and_eq_true, decide_eq_true_eq]
  rcases lt_trichotomy (reputationScore now a) (reputationScore now b) with h | h | h
  · exact Or.inr (Or.inl h)
  · rcases lt_trichotomy (availabilityScore a) (availabilityScore b) with h2 | h2 | h2
    · exact Or.inr (Or.inr ⟨h.symm, Or.inl h2⟩)
    · rcases le_total (hoursSinceLastSeen now a) (hoursSinceLastSeen now b) with h3 | h3
      · exact Or.inl (Or.inr ⟨h, Or.inr ⟨h2, h3⟩⟩)
      · exact Or.inr (Or.inr ⟨h.symm, Or.inr ⟨h2.symm, h3⟩⟩)
    · exact Or.inl (Or.inr ⟨h, Or.inl h2⟩)
  · exact Or.inl (Or.inl h)

/-- Stage 10: push all sorted documents into one array, `$unwind` with
`includeArrayIndex: rank`, add 1; i.e. attach consecutive positions starting
at `i` down the list. -/
def rankFrom {α : Type} (i : ℕ) : List α → List (α × ℕ)
  | [] => []
  | x :: xs => (x, i) :: rankFrom (i + 1) xs

/-- Stages 9-10 combined: sort by the three keys, then attach ranks 1.. . -/
def rankLeaderboard (now : ℚ) (l : List NodeAgg) : List (NodeAgg × ℕ) :=
  rankFrom 1 (l.mergeSort (sortKeyLE now))

lemma rankFrom_map_fst {α : Type} (i : ℕ) (l : List α) :
    (rankFrom i l).map Prod.fst = l := by
  induction l generalizing i with
  | nil => rfl
  | cons x xs ih => simp [rankFrom, ih]

lemma rankFrom_map_snd {α : Type} (i : ℕ) (l : List α) :
    (rankFrom i l).map Prod.snd = List.range' i l.length := by
  induction l generalizing i with
  | nil => rfl
  | cons x xs ih => simp [rankFrom, ih, List.range'_succ]

/-- C2: in every computed snapshot over N nodes the rank field is the dense
sequence 1..N with no gaps, the ranked nodes are a permutation of the input
aggregates, and consecutive entries follow the sort order: composite score
descending, then availability descending, then hours-since-last-seen
ascending. -/
theorem rank_dense_in_sort_order (now : ℚ) (l : List NodeAgg) :
    ((rankLeaderboard now l).map Prod.snd = List.range' 1 l.length)
      ∧ ((rankLeaderboard now l).map Prod.fst).Perm l
      ∧ List.Pairwise (fun x y => sortKeyLE now x y = true)
          ((rankLeaderboard now l).map Prod.fst) := by
  unfold rankLeaderboard
  refine ⟨?_, ?_, ?_⟩
  · rw [rankFrom_map_snd, List.length_mergeSort]
  · rw [rankFrom_map_fst]
    exact List.mergeSort_perm l _
  · rw [rankFrom_map_fst]
    exact List.sorted_mergeSort (sortKeyLE_trans now) (sortKeyLE_total now) l

/-! ## Cache lifecycle and scheduler (the `LeaderboardService` class)

`updateLeaderboard` is modelled as a state-transition function.  The
aggregation pipeline result is an explicit `Except` parameter: `.error`
renders a thrown telemetry-read/aggregation error, `.ok` the ranked node
list.  The `try`/`catch`/`finally` of the source becomes the corresponding
branching, with the `finally` clearing of `isUpdating` applied on every path
that entered the `try`. -/

/-- The `leaderboard_cache` document written by a successful cycle:
`timestamp: new Date()`, `allNodes`, `data: slice(0, 100)`,
`totalNodes: length`, `expiresAt: new Date(Date.now() + 60000)`. -/
structure CacheDoc where
  timestamp : ℚ
  allNodes : List (NodeAgg × ℕ)
  data : List (NodeAgg × ℕ)
  totalNodes : ℕ
  expiresAt : ℚ
deriving Repr, DecidableEq

def mkCacheDocument (now : ℚ) (leaderboard : List (NodeAgg × ℕ)) : CacheDoc :=
  { timestamp := now
    allNodes := leaderboard
    data := leaderboard.take 100
    totalNodes := leaderboard.length
    expiresAt := now + 60000 }

/-- From `start`: `process.env.LEADERBOARD_UPDATE_INTERVAL_MS || 60000`; the
environment value is `none` when the variable is unset. -/
def updateIntervalMs (env : Option ℚ) : ℚ :=
  env.getD 60000

/-- Mutable fields of the `LeaderboardService` singleton together with the
cache slot it writes (`hasCacheCollection` renders
`this.cacheCollection !== null`). -/
structure ServiceState where
  hasCacheCollection : Bool
  isRunning : Bool
  isUpdating : Bool
  cache : Option CacheDoc
deriving Repr, DecidableEq

/-- Transition `updateLeaderboard`: skip when stopped, when an update is already in
flight, or when uninitialized; otherwise set the `isUpdating` guard, run the
pipeline (re-checking `isRunning` as the source does), write the cache
document on success, swallow a thrown error, and clear the guard in
`finally` on every path that set it. -/
def updateLeaderboard (s : ServiceState) (now : ℚ)
    (agg : Except String (List (NodeAgg × ℕ))) : ServiceState :=
  if !s.isRunning then s
  else if s.isUpdating then s
  else if !s.hasCacheCollection then s
  else
    let s1 : ServiceState := { s with isUpdating := true }
    let s2 : ServiceState :=
      if !s1.isRunning then s1
      else
        match agg with
        | .error _ => s1
        | .ok leaderboard =>
          if !s1.isRunning then s1
          else if !s1.hasCacheCollection then s1
          else { s1 with cache := some (mkCacheDocument now leaderboard) }
    { s2 with isUpdating := false }

/-- Handler `forceUpdate` simply awaits `updateLeaderboard`. -/
def forceUpdate (s : ServiceState) (now : ℚ)
    (agg : Except String (List (NodeAgg × ℕ))) : ServiceState :=
  updateLeaderboard s now agg

/-- C5: a forced refresh triggered while the `isUpdating` guard is set is a
no-op: the whole service state, in particular the cached snapshot, is left
unchanged. -/
theorem forceUpdate_skip_when_updating (s : ServiceState) (now : ℚ)
    (agg : Except String (List (NodeAgg × ℕ)))
    (hbusy : s.isUpdating = true) :
    forceUpdate s now agg = s := by
  unfold forceUpdate updateLeaderboard
  rcases hrun : s.isRunning with _ | _
  · simp [hrun]
  · simp [hrun, hbusy]

theorem forceUpdate_skip_when_updating_witness :
    forceUpdate
        { hasCacheCollection := true, isRunning := true, isUpdating := true
          cache := none } 0 (Except.ok [])
      = { hasCacheCollection := true, isRunning := true, isUpdating := true
          cache := none } :=
  forceUpdate_skip_when_updating _ 0 (Except.ok []) rfl

/-- C6: when the cycle's pipeline throws (telemetry read or aggregation
error, before any cache write), the error is swallowed, the previously
cached snapshot is untouched, and the guard is back to its prior value. -/
theorem update_error_preserves_cache (s : ServiceState) (now : ℚ)
    (e : String) :
    (updateLeaderboard s now (Except.error e)).cache = s.cache
      ∧ (updateLeaderboard s now (Except.error e)).isUpdating = s.isUpdating := by
  unfold updateLeaderboard
  rcases hrun : s.isRunning with _ | _
  · simp [hrun]
  · rcases hupd : s.isUpdating with _ | _
    · rcases hcol : s.hasCacheCollection with _ | _ <;>
        simp [hrun, hupd, hcol]
    · simp [hrun, hupd]

/-- C10: every invocation of `updateLeaderboard` that starts with the
`isUpdating` guard clear returns with it clear again, whatever the outcome:
skipped while stopped, skipped while uninitialized, a thrown pipeline error,
or a successful write.  A single failed or aborted cycle therefore never
blocks later periodic or forced recomputations. -/
theorem update_clears_guard (s : ServiceState) (now : ℚ)
    (agg : Except String (List (NodeAgg × ℕ)))
    (hclear : s.isUpdating = false) :
    (updateLeaderboard s now agg).isUpdating = false := by
  unfold updateLeaderboard
  rcases hrun : s.isRunning with _ | _
  · simpa [hrun] using hclear
  · rcases hcol : s.hasCacheCollection with _ | _ <;>
      simp [hrun, hclear, hcol]

theorem update_clears_guard_witness :
    (updateLeaderboard
        { hasCacheCollection := true, isRunning := true, isUpdating := false
          cache := none } 0 (Except.error "telemetry down")).isUpdating
      = false :=
  update_clears_guard _ 0 (Except.error "telemetry down") rfl

/-- C8 counterexample: the stored expiry is the hard-coded
`Date.now() + 60000`, not write time plus the configured refresh interval:
with `LEADERBOARD_UPDATE_INTERVAL_MS = 120000` the written expiry differs
from write time + interval. -/
theorem expiry_ignores_interval :
    (mkCacheDocument 0 []).expiresAt ≠ 0 + updateIntervalMs (some 120000) := by
  unfold mkCacheDocument updateIntervalMs
  norm_num

/-- C8 amended: every successful cache write stamps
`expiresAt = write time + 60000 ms`, a constant that coincides with the
scheduler's refresh interval only at the default configuration
(`updateIntervalMs none = 60000`). -/
theorem expiry_is_default_interval (now : ℚ)
    (leaderboard : List (NodeAgg × ℕ)) :
    (mkCacheDocument now leaderboard).expiresAt = now + 60000
      ∧ updateIntervalMs none = 60000 :=
  ⟨rfl, rfl⟩

/-! ## Query facade -/

/-- The document store backing the cache: `reachable` is whether requests to
it succeed, `doc` the current `leaderboard_cache` slot. -/
structure CacheStore where
  reachable : Bool
  doc : Option CacheDoc
deriving Repr, DecidableEq

/-- Read `findOne({_id: 'leaderboard_cache'})`: the read rejects when the store is
unreachable (this also covers the path where initialization already failed
and the collection handle is still null, which throws on use). -/
def findOne (store : CacheStore) : Except String (Option CacheDoc) :=
  if store.reachable then .ok store.doc else .error "cache store unreachable"

/-- Shape returned by `getLeaderboard` to the controllers. -/
structure LeaderboardView where
  data : List (NodeAgg × ℕ)
  allNodes : List (NodeAgg × ℕ)
  timestamp : Option ℚ
  totalNodes : ℕ
deriving Repr, DecidableEq

/-- The "not yet calculated" sentinel: empty lists, null timestamp, zero
total. -/
def notYetCalculated : LeaderboardView :=
  { data := [], allNodes := [], timestamp := none, totalNodes := 0 }

/-- Facade `getLeaderboard`: read the cache slot; a missing document yields the
sentinel; a read failure is caught, logged and re-thrown to the caller. -/
def getLeaderboard (store : CacheStore) : Except String LeaderboardView :=
  match findOne store with
  | .error e => .error e
  | .ok none => .ok notYetCalculated
  | .ok (some c) =>
    .ok { data := c.data, allNodes := c.allNodes
          timestamp := some c.timestamp, totalNodes := c.totalNodes }

/-- C9 counterexample: with the cache store unreachable, a facade read does
not return the "not yet computed" sentinel — it propagates the error. -/
theorem unreachable_read_raises :
    getLeaderboard { reachable := false, doc := none }
        = Except.error "cache store unreachable"
      ∧ getLeaderboard { reachable := false, doc := none }
          ≠ Except.ok notYetCalculated := by
  refine ⟨rfl, ?_⟩
  simp [getLeaderboard, findOne]

/-- C9 amended: while the cache store stays unreachable every facade read
fails with the propagated error; the sentinel (empty list, null timestamp,
zero total) is served exactly when the store is reachable and no snapshot
has ever been written. -/
theorem sentinel_iff_reachable_empty (store : CacheStore) :
    (store.reachable = false →
      getLeaderboard store = Except.error "cache store unreachable")
      ∧ (store.reachable = true → store.doc = none →
          getLeaderboard store = Except.ok notYetCalculated) := by
  constructor
  · intro h
    simp [getLeaderboard, findOne, h]
  · intro h h2
    simp [getLeaderboard, findOne, h, h2]

theorem sentinel_iff_reachable_empty_witness :
    getLeaderboard { reachable := true, doc := none }
      = Except.ok notYetCalculated :=
  (sentinel_iff_reachable_empty { reachable := true, doc := none }).2 rfl rfl

/-- The `getTopNodes` count parsing:
`Math.min(parseInt(req.params.count) || 10, 100)`.  `parsed = none` renders a
non-numeric parameter (`parseInt` gives `NaN`, which is falsy, as is `0`). -/
def topNodesCount (parsed : Option Int) : Int :=
  min (match parsed with
       | none => 10
       | some v => if v = 0 then 10 else v)
    100

/-- JavaScript `Array.prototype.slice(0, stop)`: a non-negative `stop` takes
that many leading elements; a negative `stop` counts from the end of the
array. -/
def jsSliceFromZero {α : Type} (l : List α) (stop : Int) : List α :=
  if 0 ≤ stop then l.take stop.toNat
  else l.take ((l.length : Int) + stop).toNat

/-- Route `GET /leaderboard/top/:count`: slice the cached top-100 projection. -/
def getTopNodes {α : Type} (parsed : Option Int) (data : List α) : List α :=
  jsSliceFromZero data (topNodesCount parsed)

/-- C7 counterexample: a requested count below 1 is not clamped to 1: for
count `-1` over a 3-entry projection the handler returns the first two
entries (JavaScript `slice(0, -1)`), not the 1-element head. -/
theorem topNodes_negative_not_clamped :
    getTopNodes (some (-1)) ([10, 20, 30] : List ℕ) = [10, 20]
      ∧ getTopNodes (some (-1)) ([10, 20, 30] : List ℕ)
          ≠ ([10, 20, 30] : List ℕ).take 1 := by
  constructor <;> decide

/-- C7 amended: the requested count is only clamped from above at 100, with
default 10 when the parameter is non-numeric (or parses to the falsy 0); the
result is always some leading slice of the cached projection, of length
`min count 100` for counts ≥ 1 but, for negative counts, the slice dropping
the last `|count|` entries (possibly empty), never a forced 1-element head. -/
theorem topNodes_slice_amended {α : Type} (parsed : Option Int)
    (data : List α) :
    (∃ k, getTopNodes parsed data = data.take k)
      ∧ getTopNodes none data = data.take 10
      ∧ (∀ v : Int, 1 ≤ v →
          getTopNodes (some v) data = data.take (min v 100).toNat)
      ∧ (∀ v : Int, v < 0 →
          getTopNodes (some v) data
            = data.take ((data.length : Int) + v).toNat) := by
  refine ⟨?_, ?_, ?_, ?_⟩
  · unfold getTopNodes jsSliceFromZero
    split
    · exact ⟨_, rfl⟩
    · exact ⟨_, rfl⟩
  · simp [getTopNodes, topNodesCount, jsSliceFromZero]
  · intro v hv
    unfold getTopNodes topNodesCount jsSliceFromZero
    simp only [if_neg (by omega : ¬v = 0)]
    rw [if_pos (by omega : (0:ℤ) ≤ min v 100)]
  · intro v hv
    unfold getTopNodes topNodesCount jsSliceFromZero
    simp only [if_neg (by omega : ¬v = 0)]
    rw [if_neg (by omega : ¬(0:ℤ) ≤ min v 100)]
    congr 1
    omega

theorem topNodes_slice_amended_witness :
    getTopNodes (some 5) ([1, 2, 3] : List ℕ)
      = ([1, 2, 3] : List ℕ).take (min (5:ℤ) 100).toNat :=
  (topNodes_slice_amended (some 5) [1, 2, 3]).2.2.1 5 (by decide)

end Leaderboard
